import Mathlib

/-!
Shallow embedding of the chezmoi debug decorators (DebugSystem and
DebugPersistentState), of the chezmoilog support library, and of the
Interpreter resolver, together with theorems checking the specification's
claims against the embedded code.

Modelling conventions:
- byte slices are lists of naturals; the byte for a full stop is 46;
- a Go error value is an Option GoError, where Option.none is the nil error,
  GoError.exitError models an os/exec ExitError carrying its optional
  process state, and GoError.other models every other error by its message;
- a logger is modelled by its presence: a Bool that is false exactly when
  the Go logger pointer is nil; emission is modelled by returning the list
  of records the call emits (operations that call the logger without a nil
  check, or that use the process-wide default logger, take no such Bool);
- each decorator operation takes the behaviour of the wrapped inner
  implementation as a function argument and returns the pair of the
  forwarded result and the emitted records.
-/

namespace Chezmoi

abbrev Bytes := List Nat

/-- Model of os.ProcessState as read through an os/exec ExitError: whether
the process exited on its own, its exit code, its pid, and its user and
system CPU times (durations; zero when absent). -/
structure ProcessState where
  exited : Bool
  exitCode : Int
  pid : Int
  userTime : Int
  systemTime : Int
deriving DecidableEq

/-- Model of a non-nil Go error: an os/exec ExitError with its optional
process state, or any other error identified by its message. -/
inductive GoError where
  | exitError (ps : Option ProcessState)
  | other (msg : String)
deriving DecidableEq

/-- An Interpreter interprets scripts. -/
structure Interpreter where
  Command : String
  Args : List String
deriving DecidableEq

/-- Model of os/exec.Cmd: Path is the program and Args holds the program
name followed by its arguments, as built by os/exec.Command. -/
structure Cmd where
  Path : String
  Args : List String
deriving DecidableEq

/-- Model of os/exec.Command: Path is the given name and Args is the name
followed by the given arguments. -/
def execCommand (name : String) (arg : List String) : Cmd :=
  ⟨name, name :: arg⟩

/-- None returns if i represents no interpreter: a nil receiver or an empty
command name. -/
def Interpreter.None (i : Option Interpreter) : Bool :=
  match i with
  | Option.none => true
  | some j => j.Command = ""

/-- ExecCommand returns the Cmd to interpret name: when i.None(), the
script name invoked directly; otherwise the configured command with the
configured args and the script name appended last. The source's single
i.None() test is inlined over the two receiver shapes. -/
def Interpreter.ExecCommand (i : Option Interpreter) (name : String) : Cmd :=
  match i with
  | Option.none => execCommand name []
  | some j =>
    if j.Command = "" then execCommand name []
    else execCommand j.Command (j.Args ++ [name])

/-- Attribute values appearing in log records. -/
inductive AttrValue where
  | str (s : String)
  | int (i : Int)
  | time (t : Int)
  | duration (d : Int)
  | bytes (b : Bytes)
  | strs (l : List String)
  | err (e : Option GoError)
  | interp (i : Option Interpreter)
  | cmd (c : Cmd)
  | anyStr (s : String)
deriving DecidableEq

/-- A structured log attribute: a key and a typed value. -/
structure Attr where
  key : String
  value : AttrValue
deriving DecidableEq

/-- Log levels used by the decorators. -/
inductive Level where
  | info
  | error
deriving DecidableEq

/-- One emitted log record. -/
structure LogRecord where
  level : Level
  msg : String
  attrs : List Attr
deriving DecidableEq

/-- Stringer builds a string attribute from a value's string form (the
fmt.Stringer argument is modelled by the string it renders to). -/
def Stringer (key : String) (s : String) : Attr :=
  ⟨key, AttrValue.str s⟩

/-- The truncation threshold. -/
def few : Nat := 64

/-- FirstFewBytes returns the first few bytes of data: data unchanged when
its length is at most 64, otherwise a copy of the first 64 bytes followed
by the three-byte marker of full stops. -/
def FirstFewBytes (data : Bytes) : Bytes :=
  if data.length > few then data.take few ++ [46, 46, 46] else data

/-- Output returns the full data when err is non-nil, otherwise the
truncated FirstFewBytes form. -/
def Output (data : Bytes) (err : Option GoError) : Bytes :=
  match err with
  | some _ => data
  | Option.none => FirstFewBytes data

/-- InfoOrError emits nothing when the logger is nil; otherwise one
error-level record with an err attribute prepended to args when err is
non-nil, and one info-level record with args alone when err is nil. -/
def InfoOrError (logger : Bool) (msg : String) (err : Option GoError)
    (args : List Attr) : List LogRecord :=
  if logger then
    match err with
    | some e => [⟨Level.error, msg, ⟨"err", AttrValue.err (some e)⟩ :: args⟩]
    | Option.none => [⟨Level.info, msg, args⟩]
  else []

/-- AppendExitErrorAttrs appends exit-status attributes decoded from err:
an opaque err attribute when err is not an ExitError; otherwise, when the
process state is present, an exitCode attribute if the process exited or a
pid attribute if it did not, then userTime and systemTime duration
attributes exactly when nonzero. -/
def AppendExitErrorAttrs (attrs : List Attr) (err : Option GoError) : List Attr :=
  match err with
  | some (GoError.exitError ps) =>
    match ps with
    | some p =>
      let a1 := attrs ++
        [if p.exited then ⟨"exitCode", AttrValue.int p.exitCode⟩
         else ⟨"pid", AttrValue.int p.pid⟩]
      let a2 :=
        if p.userTime ≠ 0 then a1 ++ [⟨"userTime", AttrValue.duration p.userTime⟩] else a1
      if p.systemTime ≠ 0 then a2 ++ [⟨"systemTime", AttrValue.duration p.systemTime⟩] else a2
    | Option.none => attrs
  | _ => attrs ++ [⟨"err", AttrValue.err err⟩]

/-- Chtimes implements System.Chtimes: forward, log via InfoOrError, return
the inner error. -/
def DebugSystem.Chtimes (logger : Bool) (inner : String → Int → Int → Option GoError)
    (name : String) (atime mtime : Int) : Option GoError × List LogRecord :=
  let err := inner name atime mtime
  (err, InfoOrError logger "Chtimes" err
    [Stringer "name" name, ⟨"atime", AttrValue.time atime⟩, ⟨"mtime", AttrValue.time mtime⟩])

/-- Chmod implements System.Chmod. -/
def DebugSystem.Chmod (logger : Bool) (inner : String → Int → Option GoError)
    (name : String) (mode : Int) : Option GoError × List LogRecord :=
  let err := inner name mode
  (err, InfoOrError logger "Chmod" err
    [Stringer "name" name, ⟨"mode", AttrValue.int mode⟩])

/-- Glob implements System.Glob. -/
def DebugSystem.Glob (logger : Bool) (inner : String → List String × Option GoError)
    (name : String) : (List String × Option GoError) × List LogRecord :=
  let r := inner name
  (r, InfoOrError logger "Glob" r.2
    [⟨"name", AttrValue.str name⟩, ⟨"matches", AttrValue.strs r.1⟩])

/-- Link implements System.Link. -/
def DebugSystem.Link (logger : Bool) (inner : String → String → Option GoError)
    (oldpath newpath : String) : Option GoError × List LogRecord :=
  let err := inner oldpath newpath
  (err, InfoOrError logger "Link" err
    [Stringer "oldpath" oldpath, Stringer "newpath" newpath])

/-- Lstat implements System.Lstat; the file-info result is not logged. -/
def DebugSystem.Lstat {α : Type} (logger : Bool) (inner : String → α × Option GoError)
    (name : String) : (α × Option GoError) × List LogRecord :=
  let r := inner name
  (r, InfoOrError logger "Lstat" r.2 [Stringer "name" name])

/-- Mkdir implements System.Mkdir. -/
def DebugSystem.Mkdir (logger : Bool) (inner : String → Int → Option GoError)
    (name : String) (perm : Int) : Option GoError × List LogRecord :=
  let err := inner name perm
  (err, InfoOrError logger "Mkdir" err
    [Stringer "name" name, ⟨"perm", AttrValue.int perm⟩])

/-- RawPath implements System.RawPath: a pure pass-through, never logged. -/
def DebugSystem.RawPath (inner : String → String × Option GoError)
    (path : String) : String × Option GoError :=
  inner path

/-- ReadDir implements System.ReadDir; the entries are not logged. -/
def DebugSystem.ReadDir {α : Type} (logger : Bool) (inner : String → α × Option GoError)
    (name : String) : (α × Option GoError) × List LogRecord :=
  let r := inner name
  (r, InfoOrError logger "ReadDir" r.2 [Stringer "name" name])

/-- ReadFile implements System.ReadFile: on error it logs only the error at
error level; on success it logs the Output sample and the size at info
level (the logger is called without a nil check, so it is assumed
present). -/
def DebugSystem.ReadFile (inner : String → Bytes × Option GoError)
    (name : String) : (Bytes × Option GoError) × List LogRecord :=
  let r := inner name
  (r, match r.2 with
    | some e => [⟨Level.error, "ReadFile", [⟨"err", AttrValue.err (some e)⟩]⟩]
    | Option.none =>
      [⟨Level.info, "ReadFile",
        [⟨"data", AttrValue.bytes (Output r.1 r.2)⟩,
         ⟨"size", AttrValue.int (r.1.length : Int)⟩]⟩])

/-- Readlink implements System.Readlink; both branches log the message
"ReadLink" as in the source. -/
def DebugSystem.Readlink (inner : String → String × Option GoError)
    (name : String) : (String × Option GoError) × List LogRecord :=
  let r := inner name
  (r, match r.2 with
    | some e => [⟨Level.error, "ReadLink", [⟨"err", AttrValue.err (some e)⟩]⟩]
    | Option.none => [⟨Level.info, "ReadLink", [⟨"linkname", AttrValue.str r.1⟩]⟩])

/-- Remove implements System.Remove. -/
def DebugSystem.Remove (logger : Bool) (inner : String → Option GoError)
    (name : String) : Option GoError × List LogRecord :=
  let err := inner name
  (err, InfoOrError logger "Remove" err [Stringer "name" name])

/-- RemoveAll implements System.RemoveAll. -/
def DebugSystem.RemoveAll (logger : Bool) (inner : String → Option GoError)
    (name : String) : Option GoError × List LogRecord :=
  let err := inner name
  (err, InfoOrError logger "RemoveAll" err [Stringer "name" name])

/-- Rename implements System.Rename. The source logs the message
"RemoveAll" here; the embedding reproduces that. -/
def DebugSystem.Rename (logger : Bool) (inner : String → String → Option GoError)
    (oldpath newpath : String) : Option GoError × List LogRecord :=
  let err := inner oldpath newpath
  (err, InfoOrError logger "RemoveAll" err
    [Stringer "oldpath" oldpath, Stringer "newpath" newpath])

/-- RunCmd implements System.RunCmd: it logs the command, the elapsed
duration (an ambient input of the model) and decoded exit-status
attributes to the process-wide default logger, at error level exactly when
the call failed. -/
def DebugSystem.RunCmd (elapsed : Int) (inner : Cmd → Option GoError)
    (cmd : Cmd) : Option GoError × List LogRecord :=
  let err := inner cmd
  (err,
    [⟨if err.isSome then Level.error else Level.info, "RunCmd",
      [⟨"cmd", AttrValue.cmd cmd⟩, ⟨"duration", AttrValue.duration elapsed⟩]
        ++ AppendExitErrorAttrs [] err⟩])

/-- The fields of RunScriptOptions read by DebugSystem.RunScript. -/
structure RunScriptOptions where
  Interpreter : Option Interpreter
  Condition : String
deriving DecidableEq

/-- RunScript implements System.RunScript: it logs scriptname, dir, the
Output sample of the script data, the interpreter, the condition and
decoded exit-status attributes to the process-wide default logger, at
error level exactly when the call failed. It records no start time and no
duration. -/
def DebugSystem.RunScript
    (inner : String → String → Bytes → RunScriptOptions → Option GoError)
    (scriptname dir : String) (data : Bytes) (options : RunScriptOptions) :
    Option GoError × List LogRecord :=
  let err := inner scriptname dir data options
  (err,
    [⟨if err.isSome then Level.error else Level.info, "RunScript",
      [Stringer "scriptname" scriptname, Stringer "dir" dir,
       ⟨"data", AttrValue.bytes (Output data err)⟩,
       ⟨"interpreter", AttrValue.interp options.Interpreter⟩,
       ⟨"condition", AttrValue.str options.Condition⟩]
        ++ AppendExitErrorAttrs [] err⟩])

/-- Stat implements System.Stat; the file-info result is not logged. -/
def DebugSystem.Stat {α : Type} (logger : Bool) (inner : String → α × Option GoError)
    (name : String) : (α × Option GoError) × List LogRecord :=
  let r := inner name
  (r, InfoOrError logger "Stat" r.2 [Stringer "name" name])

/-- UnderlyingFS implements System.UnderlyingFS: a pure pass-through. -/
def DebugSystem.UnderlyingFS {α : Type} (inner : α) : α :=
  inner

/-- WriteFile implements System.WriteFile: the logged data sample is always
the FirstFewBytes form, independent of the error. -/
def DebugSystem.WriteFile (logger : Bool) (inner : String → Bytes → Int → Option GoError)
    (name : String) (data : Bytes) (perm : Int) : Option GoError × List LogRecord :=
  let err := inner name data perm
  (err, InfoOrError logger "WriteFile" err
    [Stringer "name" name, ⟨"data", AttrValue.bytes (FirstFewBytes data)⟩,
     ⟨"perm", AttrValue.int perm⟩, ⟨"size", AttrValue.int (data.length : Int)⟩])

/-- WriteSymlink implements System.WriteSymlink. -/
def DebugSystem.WriteSymlink (logger : Bool) (inner : String → String → Option GoError)
    (oldname newname : String) : Option GoError × List LogRecord :=
  let err := inner oldname newname
  (err, InfoOrError logger "WriteSymlink" err
    [⟨"oldname", AttrValue.str oldname⟩, Stringer "newname" newname])

/-- Close implements PersistentState.Close. -/
def DebugPersistentState.Close (logger : Bool) (inner : Option GoError) :
    Option GoError × List LogRecord :=
  (inner, InfoOrError logger "Close" inner [])

/-- CopyTo implements PersistentState.CopyTo. -/
def DebugPersistentState.CopyTo (logger : Bool) (inner : Option GoError) :
    Option GoError × List LogRecord :=
  (inner, InfoOrError logger "CopyTo" inner [])

/-- Data implements PersistentState.Data; the any-typed value is modelled
as an opaque string. -/
def DebugPersistentState.Data (logger : Bool) (inner : String × Option GoError) :
    (String × Option GoError) × List LogRecord :=
  (inner, InfoOrError logger "Data" inner.2 [⟨"data", AttrValue.anyStr inner.1⟩])

/-- Delete implements PersistentState.Delete. -/
def DebugPersistentState.Delete (logger : Bool) (inner : Bytes → Bytes → Option GoError)
    (bucket key : Bytes) : Option GoError × List LogRecord :=
  let err := inner bucket key
  (err, InfoOrError logger "Delete" err
    [⟨"bucket", AttrValue.bytes bucket⟩, ⟨"key", AttrValue.bytes key⟩])

/-- DeleteBucket implements PersistentState.DeleteBucket. -/
def DebugPersistentState.DeleteBucket (logger : Bool) (inner : Bytes → Option GoError)
    (bucket : Bytes) : Option GoError × List LogRecord :=
  let err := inner bucket
  (err, InfoOrError logger "DeleteBucket" err [⟨"bucket", AttrValue.bytes bucket⟩])

/-- Get implements PersistentState.Get. -/
def DebugPersistentState.Get (logger : Bool) (inner : Bytes → Bytes → Bytes × Option GoError)
    (bucket key : Bytes) : (Bytes × Option GoError) × List LogRecord :=
  let r := inner bucket key
  (r, InfoOrError logger "Get" r.2
    [⟨"bucket", AttrValue.bytes bucket⟩, ⟨"key", AttrValue.bytes key⟩,
     ⟨"value", AttrValue.bytes r.1⟩])

/-- Set implements PersistentState.Set. -/
def DebugPersistentState.Set (logger : Bool)
    (inner : Bytes → Bytes → Bytes → Option GoError)
    (bucket key value : Bytes) : Option GoError × List LogRecord :=
  let err := inner bucket key value
  (err, InfoOrError logger "Set" err
    [⟨"bucket", AttrValue.bytes bucket⟩, ⟨"key", AttrValue.bytes key⟩,
     ⟨"value", AttrValue.bytes value⟩])

/-- Model of the underlying store's ForEach over its list of entries: it
invokes the callback in order and halts as soon as the callback returns a
non-nil error (the iteration contract the specification assumes); after a
full pass it returns the store's own tail error. It returns the final
error, the records emitted by the callback, and the entries on which the
callback was invoked. -/
def storeForEach (cb : Bytes → Bytes → Option GoError × List LogRecord)
    (tailErr : Option GoError) :
    List (Bytes × Bytes) → Option GoError × List LogRecord × List (Bytes × Bytes)
  | [] => (tailErr, [], [])
  | (k, v) :: rest =>
    let r := cb k v
    match r.1 with
    | some e => (some e, r.2, [(k, v)])
    | Option.none =>
      let r2 := storeForEach cb tailErr rest
      (r2.1, r.2 ++ r2.2.1, (k, v) :: r2.2.2)

/-- The same iteration with the raw, unwrapped callback: the error the
underlying store would return when driven directly. -/
def rawForEach (fn : Bytes → Bytes → Option GoError) (tailErr : Option GoError) :
    List (Bytes × Bytes) → Option GoError
  | [] => tailErr
  | (k, v) :: rest =>
    match fn k v with
    | some e => some e
    | Option.none => rawForEach fn tailErr rest

/-- ForEach implements PersistentState.ForEach: it wraps the callback so
that every visited pair is logged with the callback's outcome, runs the
underlying iteration, then emits one summary record for the whole call.
The third component reports the entries the callback was invoked on. -/
def DebugPersistentState.ForEach (logger : Bool) (entries : List (Bytes × Bytes))
    (tailErr : Option GoError) (bucket : Bytes)
    (fn : Bytes → Bytes → Option GoError) :
    Option GoError × List LogRecord × List (Bytes × Bytes) :=
  let r := storeForEach (fun k v =>
    let err := fn k v
    (err, InfoOrError logger "ForEach" err
      [⟨"bucket", AttrValue.bytes bucket⟩, ⟨"key", AttrValue.bytes k⟩,
       ⟨"value", AttrValue.bytes v⟩])) tailErr entries
  (r.1, r.2.1 ++ InfoOrError logger "ForEach" r.1 [⟨"bucket", AttrValue.bytes bucket⟩], r.2.2)

/-- The keys of the exit-status attributes decoded from an ExitError whose
process state is present. -/
def exitErrKeys (p : ProcessState) : List String :=
  (AppendExitErrorAttrs [] (some (GoError.exitError (some p)))).map Attr.key

theorem appendExitErrorAttrs_ps (attrs : List Attr) (p : ProcessState) :
    AppendExitErrorAttrs attrs (some (GoError.exitError (some p)))
      = attrs
        ++ [if p.exited then Attr.mk "exitCode" (AttrValue.int p.exitCode)
            else Attr.mk "pid" (AttrValue.int p.pid)]
        ++ (if p.userTime ≠ 0 then [Attr.mk "userTime" (AttrValue.duration p.userTime)] else [])
        ++ (if p.systemTime ≠ 0 then [Attr.mk "systemTime" (AttrValue.duration p.systemTime)]
            else []) := by
  simp only [AppendExitErrorAttrs]
  by_cases hu : p.userTime = 0 <;> by_cases hs : p.systemTime = 0 <;>
    simp [hu, hs, List.append_assoc]

theorem storeForEach_fst (cb : Bytes → Bytes → Option GoError × List LogRecord)
    (tailErr : Option GoError) (entries : List (Bytes × Bytes)) :
    (storeForEach cb tailErr entries).1
      = rawForEach (fun k v => (cb k v).1) tailErr entries := by
  induction entries with
  | nil => rfl
  | cons e rest ih =>
    obtain ⟨k, v⟩ := e
    simp only [storeForEach, rawForEach]
    cases h : (cb k v).1 with
    | none => simpa [h] using ih
    | some e2 => simp [h]

theorem storeForEach_logs_nil (cb : Bytes → Bytes → Option GoError × List LogRecord)
    (tailErr : Option GoError) (hcb : ∀ k v, (cb k v).2 = [])
    (entries : List (Bytes × Bytes)) :
    (storeForEach cb tailErr entries).2.1 = [] := by
  induction entries with
  | nil => rfl
  | cons e rest ih =>
    obtain ⟨k, v⟩ := e
    simp only [storeForEach]
    cases h : (cb k v).1 with
    | none => simp [h, hcb, ih]
    | some e2 => simp [h, hcb]

/-- Claim C2: Output is the identity for payloads of length at most 64 with
a nil error; for longer payloads with a nil error it is the first 64 bytes
followed by the three-byte marker, total length 67; with a non-nil error it
is the full payload regardless of length. -/
theorem c2_output_truncation (d1 d2 d3 : Bytes) (e : GoError)
    (h1 : d1.length ≤ 64) (h2 : d2.length > 64) :
    Output d1 Option.none = d1
    ∧ (Output d2 Option.none = d2.take 64 ++ [46, 46, 46]
       ∧ (Output d2 Option.none).length = 67)
    ∧ Output d3 (some e) = d3 := by
  refine ⟨?_, ⟨?_, ?_⟩, rfl⟩
  · show FirstFewBytes d1 = d1
    unfold FirstFewBytes few
    rw [if_neg (by omega)]
  · show FirstFewBytes d2 = d2.take 64 ++ [46, 46, 46]
    unfold FirstFewBytes few
    rw [if_pos (by omega)]
  · show (FirstFewBytes d2).length = 67
    unfold FirstFewBytes few
    rw [if_pos (by omega)]
    simp
    omega

/-- Closed instance of c2_output_truncation at concrete payloads. -/
theorem c2_output_truncation_witness :
    (List.replicate 10 1).length ≤ 64
    ∧ (List.replicate 65 2).length > 64
    ∧ (Output (List.replicate 10 1) Option.none = List.replicate 10 1
       ∧ (Output (List.replicate 65 2) Option.none
            = (List.replicate 65 2).take 64 ++ [46, 46, 46]
          ∧ (Output (List.replicate 65 2) Option.none).length = 67)
       ∧ Output (List.replicate 70 3) (some (GoError.other "e")) = List.replicate 70 3) :=
  ⟨by decide, by decide,
   c2_output_truncation (List.replicate 10 1) (List.replicate 65 2) (List.replicate 70 3)
     (GoError.other "e") (by decide) (by decide)⟩

/-- Claim C3: over an underlying store with entries A, B, C in order and a
callback failing on B, the decorator invokes the callback on A and B only,
emits one per-element record for A and one for B (plus the summary record),
and returns the callback's error; C is neither visited nor logged. -/
theorem c3_foreach_stops_at_failing_callback :
    DebugPersistentState.ForEach true
        [([1], [10]), ([2], [20]), ([3], [30])] Option.none [9]
        (fun k _ => if k = [2] then some (GoError.other "boom") else Option.none)
      = (some (GoError.other "boom"),
         [⟨Level.info, "ForEach",
            [⟨"bucket", AttrValue.bytes [9]⟩, ⟨"key", AttrValue.bytes [1]⟩,
             ⟨"value", AttrValue.bytes [10]⟩]⟩,
          ⟨Level.error, "ForEach",
            [⟨"err", AttrValue.err (some (GoError.other "boom"))⟩,
             ⟨"bucket", AttrValue.bytes [9]⟩, ⟨"key", AttrValue.bytes [2]⟩,
             ⟨"value", AttrValue.bytes [20]⟩]⟩,
          ⟨Level.error, "ForEach",
            [⟨"err", AttrValue.err (some (GoError.other "boom"))⟩,
             ⟨"bucket", AttrValue.bytes [9]⟩]⟩],
         [([1], [10]), ([2], [20])]) := by
  decide

/-- Claim C5 (code bug): the decorator's Rename operation logs the message
"RemoveAll", not "Rename" as the specification's operation table states. -/
theorem c5_rename_logs_removeall_message :
    (DebugSystem.Rename true (fun _ _ => Option.none) "/a" "/b").2
      = [⟨Level.info, "RemoveAll",
          [⟨"oldpath", AttrValue.str "/a"⟩, ⟨"newpath", AttrValue.str "/b"⟩]⟩]
    ∧ (DebugSystem.Rename true (fun _ _ => Option.none) "/a" "/b").2.map LogRecord.msg
        ≠ ["Rename"] := by
  exact ⟨by decide, by decide⟩

/-- Claim C8: with no interpreter (nil or empty command) the script is
invoked directly with no extra arguments; with command "sh" and args
["-x"] the invocation is "sh" with arguments ["-x", "deploy.sh"] in that
order (the program itself is the first element of Args, as os/exec
builds it). -/
theorem c8_interpreter_resolution :
    Interpreter.ExecCommand Option.none "deploy.sh" = ⟨"deploy.sh", ["deploy.sh"]⟩
    ∧ (∀ args : List String,
        Interpreter.ExecCommand (some ⟨"", args⟩) "deploy.sh"
          = ⟨"deploy.sh", ["deploy.sh"]⟩)
    ∧ Interpreter.ExecCommand (some ⟨"sh", ["-x"]⟩) "deploy.sh"
        = ⟨"sh", ["sh", "-x", "deploy.sh"]⟩ := by
  refine ⟨rfl, fun args => ?_, by decide⟩
  simp [Interpreter.ExecCommand, execCommand]

theorem exitErrKeys_eq (p : ProcessState) :
    exitErrKeys p
      = [if p.exited then "exitCode" else "pid"]
        ++ (if p.userTime ≠ 0 then ["userTime"] else [])
        ++ (if p.systemTime ≠ 0 then ["systemTime"] else []) := by
  unfold exitErrKeys
  rw [appendExitErrorAttrs_ps]
  by_cases he : p.exited <;> by_cases hu : p.userTime = 0 <;>
    by_cases hs : p.systemTime = 0 <;> simp [he, hu, hs]

/-- Claim C4: decoding an ExitError of a process that exited with code 2
yields an exitCode attribute equal to 2 and no pid attribute; for a process
terminated by signal before exiting it yields a pid attribute and no
exitCode attribute; and a userTime (resp. systemTime) duration attribute is
present exactly when the corresponding CPU time is nonzero. -/
theorem c4_exit_error_attr_decoding (p q r : ProcessState)
    (hp : p.exited = true) (hc : p.exitCode = 2) (hq : q.exited = false) :
    (Attr.mk "exitCode" (AttrValue.int 2)
        ∈ AppendExitErrorAttrs [] (some (GoError.exitError (some p)))
      ∧ "pid" ∉ exitErrKeys p)
    ∧ ("pid" ∈ exitErrKeys q ∧ "exitCode" ∉ exitErrKeys q)
    ∧ ("userTime" ∈ exitErrKeys r ↔ r.userTime ≠ 0)
    ∧ ("systemTime" ∈ exitErrKeys r ↔ r.systemTime ≠ 0) := by
  refine ⟨⟨?_, ?_⟩, ⟨?_, ?_⟩, ?_, ?_⟩
  · rw [appendExitErrorAttrs_ps]
    simp [hp, hc]
  · rw [exitErrKeys_eq]
    by_cases hu : p.userTime = 0 <;> by_cases hs : p.systemTime = 0 <;>
      simp [hp, hu, hs]
  · rw [exitErrKeys_eq]
    by_cases hu : q.userTime = 0 <;> by_cases hs : q.systemTime = 0 <;>
      simp [hq, hu, hs]
  · rw [exitErrKeys_eq]
    by_cases hu : q.userTime = 0 <;> by_cases hs : q.systemTime = 0 <;>
      simp [hq, hu, hs]
  · rw [exitErrKeys_eq]
    by_cases he : r.exited <;> by_cases hu : r.userTime = 0 <;>
      by_cases hs : r.systemTime = 0 <;> simp [he, hu, hs]
  · rw [exitErrKeys_eq]
    by_cases he : r.exited <;> by_cases hu : r.userTime = 0 <;>
      by_cases hs : r.systemTime = 0 <;> simp [he, hu, hs]

/-- Closed instance of c4_exit_error_attr_decoding at concrete process
states. -/
theorem c4_exit_error_attr_decoding_witness :
    (⟨true, 2, 7, 1, 0⟩ : ProcessState).exited = true
    ∧ (⟨true, 2, 7, 1, 0⟩ : ProcessState).exitCode = 2
    ∧ (⟨false, 0, 9, 0, 3⟩ : ProcessState).exited = false
    ∧ ((Attr.mk "exitCode" (AttrValue.int 2)
          ∈ AppendExitErrorAttrs [] (some (GoError.exitError (some ⟨true, 2, 7, 1, 0⟩)))
        ∧ "pid" ∉ exitErrKeys ⟨true, 2, 7, 1, 0⟩)
       ∧ ("pid" ∈ exitErrKeys ⟨false, 0, 9, 0, 3⟩
          ∧ "exitCode" ∉ exitErrKeys ⟨false, 0, 9, 0, 3⟩)
       ∧ ("userTime" ∈ exitErrKeys ⟨true, 0, 0, 5, 0⟩
            ↔ (⟨true, 0, 0, 5, 0⟩ : ProcessState).userTime ≠ 0)
       ∧ ("systemTime" ∈ exitErrKeys ⟨true, 0, 0, 5, 0⟩
            ↔ (⟨true, 0, 0, 5, 0⟩ : ProcessState).systemTime ≠ 0)) :=
  ⟨rfl, rfl, rfl, c4_exit_error_attr_decoding _ _ _ rfl rfl rfl⟩

/-- Claim C9: a failing ReadFile emits exactly one error-level record whose
only attribute is the error; a succeeding ReadFile emits one info-level
record with the truncated data sample and the size. -/
theorem c9_readfile_error_logs_only_error
    (inner1 inner2 : String → Bytes × Option GoError) (name1 name2 : String)
    (d1 d2 : Bytes) (e : GoError)
    (h1 : inner1 name1 = (d1, some e)) (h2 : inner2 name2 = (d2, Option.none)) :
    (DebugSystem.ReadFile inner1 name1).2
      = [⟨Level.error, "ReadFile", [⟨"err", AttrValue.err (some e)⟩]⟩]
    ∧ (DebugSystem.ReadFile inner2 name2).2
      = [⟨Level.info, "ReadFile",
          [⟨"data", AttrValue.bytes (FirstFewBytes d2)⟩,
           ⟨"size", AttrValue.int (d2.length : Int)⟩]⟩] := by
  constructor
  · simp [DebugSystem.ReadFile, h1]
  · simp [DebugSystem.ReadFile, h2, Output]

/-- Closed instance of c9_readfile_error_logs_only_error at concrete inner
implementations. -/
theorem c9_readfile_error_logs_only_error_witness :
    ((fun _ => (([1] : Bytes), some (GoError.other "e0"))) "a"
        = (([1] : Bytes), some (GoError.other "e0")))
    ∧ ((fun _ => (([1, 2, 3] : Bytes), (Option.none : Option GoError))) "b"
        = (([1, 2, 3] : Bytes), (Option.none : Option GoError)))
    ∧ ((DebugSystem.ReadFile (fun _ => (([1] : Bytes), some (GoError.other "e0"))) "a").2
        = [⟨Level.error, "ReadFile", [⟨"err", AttrValue.err (some (GoError.other "e0"))⟩]⟩]
       ∧ (DebugSystem.ReadFile
            (fun _ => (([1, 2, 3] : Bytes), (Option.none : Option GoError))) "b").2
        = [⟨Level.info, "ReadFile",
            [⟨"data", AttrValue.bytes (FirstFewBytes [1, 2, 3])⟩,
             ⟨"size", AttrValue.int 3⟩]⟩]) :=
  ⟨rfl, rfl,
   c9_readfile_error_logs_only_error _ _ "a" "b" [1] [1, 2, 3] (GoError.other "e0") rfl rfl⟩

/-- Claim C10: with a nil logger, InfoOrError emits nothing and returns
normally, and every DebugPersistentState operation still forwards to the
inner implementation, returns its result unchanged, and emits no record. -/
theorem c10_nil_logger_safe :
    (∀ msg err args, InfoOrError false msg err args = [])
    ∧ (∀ inner, DebugPersistentState.Close false inner = (inner, []))
    ∧ (∀ inner, DebugPersistentState.CopyTo false inner = (inner, []))
    ∧ (∀ inner, DebugPersistentState.Data false inner = (inner, []))
    ∧ (∀ inner bucket key,
        DebugPersistentState.Delete false inner bucket key = (inner bucket key, []))
    ∧ (∀ inner bucket,
        DebugPersistentState.DeleteBucket false inner bucket = (inner bucket, []))
    ∧ (∀ inner bucket key,
        DebugPersistentState.Get false inner bucket key = (inner bucket key, []))
    ∧ (∀ inner bucket key value,
        DebugPersistentState.Set false inner bucket key value = (inner bucket key value, []))
    ∧ (∀ entries tailErr bucket fn,
        (DebugPersistentState.ForEach false entries tailErr bucket fn).1
            = rawForEach fn tailErr entries
        ∧ (DebugPersistentState.ForEach false entries tailErr bucket fn).2.1 = []) := by
  refine ⟨fun _ _ _ => rfl, fun _ => rfl, fun _ => rfl, fun _ => rfl,
    fun _ _ _ => rfl, fun _ _ => rfl, fun _ _ _ => rfl, fun _ _ _ _ => rfl,
    fun entries tailErr bucket fn => ⟨storeForEach_fst _ _ _, ?_⟩⟩
  show (storeForEach _ tailErr entries).2.1 ++ InfoOrError false "ForEach" _ _ = []
  rw [storeForEach_logs_nil _ _ (fun _ _ => rfl) entries]
  rfl

/-- Claim C6 counterexample: a failing WriteFile of a 65-byte payload logs
the truncated 67-byte sample, not the full untruncated payload as the
claim states for the failure path. -/
theorem c6_writefile_failure_counterexample :
    (DebugSystem.WriteFile true (fun _ _ _ => some (GoError.other "disk full"))
        "/f" (List.replicate 65 0) 420).2
      = [⟨Level.error, "WriteFile",
          [⟨"err", AttrValue.err (some (GoError.other "disk full"))⟩,
           ⟨"name", AttrValue.str "/f"⟩,
           ⟨"data", AttrValue.bytes (List.replicate 64 0 ++ [46, 46, 46])⟩,
           ⟨"perm", AttrValue.int 420⟩, ⟨"size", AttrValue.int 65⟩]⟩]
    ∧ Attr.mk "data" (AttrValue.bytes (List.replicate 65 0))
        ∉ ([⟨"err", AttrValue.err (some (GoError.other "disk full"))⟩,
            ⟨"name", AttrValue.str "/f"⟩,
            ⟨"data", AttrValue.bytes (List.replicate 64 0 ++ [46, 46, 46])⟩,
            ⟨"perm", AttrValue.int 420⟩, ⟨"size", AttrValue.int 65⟩] : List Attr) := by
  exact ⟨by decide, by decide⟩

/-- Claim C6 amended: for every WriteFile call, also a failing one, every
record it emits carries the FirstFewBytes-truncated data sample, and any
data attribute in such a record equals that truncated form; failure never
switches to the full payload. -/
theorem c6_writefile_always_truncates (logger : Bool)
    (inner : String → Bytes → Int → Option GoError) (name : String)
    (data : Bytes) (perm : Int) (r : LogRecord)
    (hr : r ∈ (DebugSystem.WriteFile logger inner name data perm).2) :
    Attr.mk "data" (AttrValue.bytes (FirstFewBytes data)) ∈ r.attrs
    ∧ ∀ v, Attr.mk "data" v ∈ r.attrs → v = AttrValue.bytes (FirstFewBytes data) := by
  have hrec : (DebugSystem.WriteFile logger inner name data perm).2
      = InfoOrError logger "WriteFile" (inner name data perm)
          [Stringer "name" name, ⟨"data", AttrValue.bytes (FirstFewBytes data)⟩,
           ⟨"perm", AttrValue.int perm⟩,
           ⟨"size", AttrValue.int (data.length : Int)⟩] := rfl
  rw [hrec] at hr
  cases logger
  · simp [InfoOrError] at hr
  · cases herr : inner name data perm with
    | none =>
      rw [herr] at hr
      simp only [InfoOrError, if_true, List.mem_singleton] at hr
      subst hr
      constructor
      · exact List.mem_cons_of_mem _ (List.mem_cons_self _ _)
      · intro v hv
        simp only [Stringer, List.mem_cons, List.not_mem_nil, or_false] at hv
        rcases hv with h | h | h | h
        · simp at h
        · simp at h
          exact h
        · simp at h
        · simp at h
    | some e =>
      rw [herr] at hr
      simp only [InfoOrError, if_true, List.mem_singleton] at hr
      subst hr
      constructor
      · exact List.mem_cons_of_mem _ (List.mem_cons_of_mem _ (List.mem_cons_self _ _))
      · intro v hv
        simp only [Stringer, List.mem_cons, List.not_mem_nil, or_false] at hv
        rcases hv with h | h | h | h | h
        · simp at h
        · simp at h
        · simp at h
          exact h
        · simp at h
        · simp at h

/-- The record the witness WriteFile call emits. -/
def c6Record : LogRecord :=
  ⟨Level.error, "WriteFile",
    [⟨"err", AttrValue.err (some (GoError.other "disk full"))⟩,
     ⟨"name", AttrValue.str "/f"⟩,
     ⟨"data", AttrValue.bytes (List.replicate 64 0 ++ [46, 46, 46])⟩,
     ⟨"perm", AttrValue.int 420⟩, ⟨"size", AttrValue.int 65⟩]⟩

/-- The inner implementation of the witness WriteFile call. -/
def c6Inner : String → Bytes → Int → Option GoError :=
  fun _ _ _ => some (GoError.other "disk full")

/-- Closed instance of c6_writefile_always_truncates on a failing 65-byte
write. -/
theorem c6_writefile_always_truncates_witness :
    c6Record ∈ (DebugSystem.WriteFile true c6Inner "/f" (List.replicate 65 0) 420).2
    ∧ (Attr.mk "data" (AttrValue.bytes (FirstFewBytes (List.replicate 65 0)))
        ∈ c6Record.attrs
       ∧ ∀ v, Attr.mk "data" v ∈ c6Record.attrs
          → v = AttrValue.bytes (FirstFewBytes (List.replicate 65 0))) :=
  ⟨by decide,
   c6_writefile_always_truncates true c6Inner "/f" (List.replicate 65 0) 420 c6Record
     (by decide)⟩

/-- Claim C7 counterexample: a concrete RunScript call emits a single
record with no duration attribute at all, against the claim that an
elapsed-duration attribute is included. -/
theorem c7_runscript_duration_counterexample :
    (DebugSystem.RunScript (fun _ _ _ _ => Option.none) "s.sh" "/d" []
        ⟨Option.none, "always"⟩).2
      = [⟨Level.info, "RunScript",
          [⟨"scriptname", AttrValue.str "s.sh"⟩, ⟨"dir", AttrValue.str "/d"⟩,
           ⟨"data", AttrValue.bytes []⟩, ⟨"interpreter", AttrValue.interp Option.none⟩,
           ⟨"condition", AttrValue.str "always"⟩,
           ⟨"err", AttrValue.err Option.none⟩]⟩]
    ∧ "duration"
        ∉ ([⟨"scriptname", AttrValue.str "s.sh"⟩, ⟨"dir", AttrValue.str "/d"⟩,
            ⟨"data", AttrValue.bytes []⟩, ⟨"interpreter", AttrValue.interp Option.none⟩,
            ⟨"condition", AttrValue.str "always"⟩,
            ⟨"err", AttrValue.err Option.none⟩] : List Attr).map Attr.key := by
  exact ⟨by decide, by decide⟩

theorem key_of_appendExitErrorAttrs (attrs : List Attr) (err : Option GoError)
    {a : Attr} (ha : a ∈ AppendExitErrorAttrs attrs err) :
    a ∈ attrs ∨ a.key ∈ ["err", "exitCode", "pid", "userTime", "systemTime"] := by
  match err with
  | Option.none =>
    simp only [AppendExitErrorAttrs, List.mem_append, List.mem_singleton] at ha
    rcases ha with h | h
    · exact Or.inl h
    · subst h; right; exact List.mem_cons_self _ _
  | some (GoError.other m) =>
    simp only [AppendExitErrorAttrs, List.mem_append, List.mem_singleton] at ha
    rcases ha with h | h
    · exact Or.inl h
    · subst h; right; exact List.mem_cons_self _ _
  | some (GoError.exitError Option.none) =>
    simp only [AppendExitErrorAttrs] at ha
    exact Or.inl ha
  | some (GoError.exitError (some p)) =>
    rw [appendExitErrorAttrs_ps] at ha
    simp only [List.append_assoc, List.mem_append, List.mem_singleton] at ha
    rcases ha with h | h | h | h
    · exact Or.inl h
    · right
      by_cases hpe : p.exited
      · simp [hpe] at h
        rw [h]
        exact List.mem_cons_of_mem _ (List.mem_cons_self _ _)
      · simp [hpe] at h
        rw [h]
        exact List.mem_cons_of_mem _ (List.mem_cons_of_mem _ (List.mem_cons_self _ _))
    · right
      by_cases hu : p.userTime = 0
      · simp [hu] at h
      · simp [hu] at h
        rw [h]
        exact List.mem_cons_of_mem _
          (List.mem_cons_of_mem _ (List.mem_cons_of_mem _ (List.mem_cons_self _ _)))
    · right
      by_cases hs : p.systemTime = 0
      · simp [hs] at h
      · simp [hs] at h
        rw [h]
        exact List.mem_cons_of_mem _ (List.mem_cons_of_mem _
          (List.mem_cons_of_mem _ (List.mem_cons_of_mem _ (List.mem_cons_self _ _))))

/-- Claim C7 amended: RunScript emits no elapsed-duration attribute (and
takes no start timestamp); only RunCmd includes the duration attribute in
its record. -/
theorem c7_runscript_emits_no_duration :
    (∀ inner scriptname dir data options (r : LogRecord),
        r ∈ (DebugSystem.RunScript inner scriptname dir data options).2
        → "duration" ∉ r.attrs.map Attr.key)
    ∧ (∀ (elapsed : Int) inner cmd (r : LogRecord),
        r ∈ (DebugSystem.RunCmd elapsed inner cmd).2
        → Attr.mk "duration" (AttrValue.duration elapsed) ∈ r.attrs) := by
  constructor
  · intro inner scriptname dir data options r hr hdur
    have hrec : (DebugSystem.RunScript inner scriptname dir data options).2
        = [⟨if (inner scriptname dir data options).isSome then Level.error else Level.info,
            "RunScript",
            [Stringer "scriptname" scriptname, Stringer "dir" dir,
             ⟨"data", AttrValue.bytes (Output data (inner scriptname dir data options))⟩,
             ⟨"interpreter", AttrValue.interp options.Interpreter⟩,
             ⟨"condition", AttrValue.str options.Condition⟩]
              ++ AppendExitErrorAttrs [] (inner scriptname dir data options)⟩] := rfl
    rw [hrec, List.mem_singleton] at hr
    subst hr
    obtain ⟨a, ha, hkey⟩ := List.mem_map.1 hdur
    rcases List.mem_append.1 ha with h | h
    · simp only [Stringer, List.mem_cons, List.not_mem_nil, or_false] at h
      rcases h with rfl | rfl | rfl | rfl | rfl <;> simp at hkey
    · rcases key_of_appendExitErrorAttrs [] _ h with h2 | h2
      · exact absurd h2 (List.not_mem_nil a)
      · rw [hkey] at h2
        exact absurd h2 (by decide)
  · intro elapsed inner cmd r hr
    have hrec : (DebugSystem.RunCmd elapsed inner cmd).2
        = [⟨if (inner cmd).isSome then Level.error else Level.info, "RunCmd",
            [⟨"cmd", AttrValue.cmd cmd⟩, ⟨"duration", AttrValue.duration elapsed⟩]
              ++ AppendExitErrorAttrs [] (inner cmd)⟩] := rfl
    rw [hrec, List.mem_singleton] at hr
    subst hr
    simp

/-- The record the witness RunScript call emits. -/
def c7ScriptRecord : LogRecord :=
  ⟨Level.info, "RunScript",
    [⟨"scriptname", AttrValue.str "s.sh"⟩, ⟨"dir", AttrValue.str "/d"⟩,
     ⟨"data", AttrValue.bytes []⟩, ⟨"interpreter", AttrValue.interp Option.none⟩,
     ⟨"condition", AttrValue.str "always"⟩, ⟨"err", AttrValue.err Option.none⟩]⟩

/-- The inner implementation of the witness RunScript call. -/
def c7ScriptInner : String → String → Bytes → RunScriptOptions → Option GoError :=
  fun _ _ _ _ => Option.none

/-- The record the witness RunCmd call emits. -/
def c7CmdRecord : LogRecord :=
  ⟨Level.info, "RunCmd",
    [⟨"cmd", AttrValue.cmd ⟨"ls", ["ls"]⟩⟩, ⟨"duration", AttrValue.duration 5⟩,
     ⟨"err", AttrValue.err Option.none⟩]⟩

/-- The inner implementation of the witness RunCmd call. -/
def c7CmdInner : Cmd → Option GoError :=
  fun _ => Option.none

/-- Closed instance of c7_runscript_emits_no_duration at concrete calls. -/
theorem c7_runscript_emits_no_duration_witness :
    (c7ScriptRecord ∈ (DebugSystem.RunScript c7ScriptInner "s.sh" "/d" []
          ⟨Option.none, "always"⟩).2
     ∧ "duration" ∉ c7ScriptRecord.attrs.map Attr.key)
    ∧ (c7CmdRecord ∈ (DebugSystem.RunCmd 5 c7CmdInner ⟨"ls", ["ls"]⟩).2
       ∧ Attr.mk "duration" (AttrValue.duration 5) ∈ c7CmdRecord.attrs) :=
  ⟨⟨by decide,
    c7_runscript_emits_no_duration.1 c7ScriptInner "s.sh" "/d" [] ⟨Option.none, "always"⟩
      c7ScriptRecord (by decide)⟩,
   ⟨by decide,
    c7_runscript_emits_no_duration.2 5 c7CmdInner ⟨"ls", ["ls"]⟩ c7CmdRecord (by decide)⟩⟩

/-- Claim C1: every decorated System and PersistentState operation returns
exactly the inner implementation's result value and error, for any inner
behaviour; logging never alters, wraps or suppresses either. For ForEach
the returned error equals the error the underlying iteration would return
when driven by the raw, unwrapped callback. -/
theorem c1_decorators_pass_through_results :
    (∀ (logger : Bool) inner name atime mtime,
        (DebugSystem.Chtimes logger inner name atime mtime).1 = inner name atime mtime)
    ∧ (∀ (logger : Bool) inner name mode,
        (DebugSystem.Chmod logger inner name mode).1 = inner name mode)
    ∧ (∀ (logger : Bool) inner name, (DebugSystem.Glob logger inner name).1 = inner name)
    ∧ (∀ (logger : Bool) inner oldpath newpath,
        (DebugSystem.Link logger inner oldpath newpath).1 = inner oldpath newpath)
    ∧ (∀ (α : Type) (logger : Bool) (inner : String → α × Option GoError) name,
        (DebugSystem.Lstat logger inner name).1 = inner name)
    ∧ (∀ (logger : Bool) inner name perm,
        (DebugSystem.Mkdir logger inner name perm).1 = inner name perm)
    ∧ (∀ inner path, DebugSystem.RawPath inner path = inner path)
    ∧ (∀ (α : Type) (logger : Bool) (inner : String → α × Option GoError) name,
        (DebugSystem.ReadDir logger inner name).1 = inner name)
    ∧ (∀ inner name, (DebugSystem.ReadFile inner name).1 = inner name)
    ∧ (∀ inner name, (DebugSystem.Readlink inner name).1 = inner name)
    ∧ (∀ (logger : Bool) inner name, (DebugSystem.Remove logger inner name).1 = inner name)
    ∧ (∀ (logger : Bool) inner name,
        (DebugSystem.RemoveAll logger inner name).1 = inner name)
    ∧ (∀ (logger : Bool) inner oldpath newpath,
        (DebugSystem.Rename logger inner oldpath newpath).1 = inner oldpath newpath)
    ∧ (∀ (elapsed : Int) inner cmd, (DebugSystem.RunCmd elapsed inner cmd).1 = inner cmd)
    ∧ (∀ inner scriptname dir data options,
        (DebugSystem.RunScript inner scriptname dir data options).1
          = inner scriptname dir data options)
    ∧ (∀ (α : Type) (logger : Bool) (inner : String → α × Option GoError) name,
        (DebugSystem.Stat logger inner name).1 = inner name)
    ∧ (∀ (α : Type) (inner : α), DebugSystem.UnderlyingFS inner = inner)
    ∧ (∀ (logger : Bool) inner name data perm,
        (DebugSystem.WriteFile logger inner name data perm).1 = inner name data perm)
    ∧ (∀ (logger : Bool) inner oldname newname,
        (DebugSystem.WriteSymlink logger inner oldname newname).1 = inner oldname newname)
    ∧ (∀ (logger : Bool) inner, (DebugPersistentState.Close logger inner).1 = inner)
    ∧ (∀ (logger : Bool) inner, (DebugPersistentState.CopyTo logger inner).1 = inner)
    ∧ (∀ (logger : Bool) inner, (DebugPersistentState.Data logger inner).1 = inner)
    ∧ (∀ (logger : Bool) inner bucket key,
        (DebugPersistentState.Delete logger inner bucket key).1 = inner bucket key)
    ∧ (∀ (logger : Bool) inner bucket,
        (DebugPersistentState.DeleteBucket logger inner bucket).1 = inner bucket)
    ∧ (∀ (logger : Bool) inner bucket key,
        (DebugPersistentState.Get logger inner bucket key).1 = inner bucket key)
    ∧ (∀ (logger : Bool) inner bucket key value,
        (DebugPersistentState.Set logger inner bucket key value).1 = inner bucket key value)
    ∧ (∀ (logger : Bool) entries tailErr bucket fn,
        (DebugPersistentState.ForEach logger entries tailErr bucket fn).1
          = rawForEach fn tailErr entries) := by
  refine ⟨fun _ _ _ _ _ => rfl, fun _ _ _ _ => rfl, fun _ _ _ => rfl,
    fun _ _ _ _ => rfl, fun _ _ _ _ => rfl, fun _ _ _ _ => rfl, fun _ _ => rfl,
    fun _ _ _ _ => rfl, fun _ _ => rfl, fun _ _ => rfl, fun _ _ _ => rfl,
    fun _ _ _ => rfl, fun _ _ _ _ => rfl, fun _ _ _ => rfl, fun _ _ _ _ _ => rfl,
    fun _ _ _ _ => rfl, fun _ _ => rfl, fun _ _ _ _ _ => rfl, fun _ _ _ _ => rfl,
    fun _ _ => rfl, fun _ _ => rfl, fun _ _ => rfl, fun _ _ _ _ => rfl,
    fun _ _ _ => rfl, fun _ _ _ _ => rfl, fun _ _ _ _ _ => rfl,
    fun _ entries tailErr _ fn => storeForEach_fst _ tailErr entries⟩

end Chezmoi
